import Mathlib

/-!
Shallow embedding of the asynchronous payment-gateway core: the webhook
delivery engine with retry/backoff (DeliverWebhookJob), the payment and
refund workers, the payment/refund creation routes, the idempotency-key
cache, and HMAC-SHA256 webhook signing.  Timestamps are naturals counting
milliseconds; database tables are lists or partial maps; each JS function
is translated as a pure state transformer.
-/

/-! ## Webhook delivery engine (DeliverWebhookJob) -/

/-- Status column of a `webhook_logs` row. -/
inductive WebhookStatus
  | pending
  | success
  | failed
  deriving DecidableEq, Repr

/-- One `webhook_logs` row (the columns the delivery job touches). -/
structure WebhookLog where
  attempts : Nat
  status : WebhookStatus
  lastAttemptAt : Option Nat
  nextRetryAt : Option Nat
  responseCode : Option Nat
  responseBody : Option String
  deriving DecidableEq, Repr

/-- JS truthiness fallback `v || d` on numbers: `0` and `undefined`
(modelled as `0` via `List.getD` default) both fall back to `d`. -/
def jsFallback (v d : Nat) : Nat :=
  if v = 0 then d else v

/-- Test retry intervals: 0s, 5s, 10s, 15s, 20s. -/
def testIntervals : List Nat := [0, 5000, 10000, 15000, 20000]

/-- Production retry intervals: 0s, 1m, 5m, 30m, 2h. -/
def prodIntervals : List Nat := [0, 60000, 300000, 1800000, 7200000]

/-- Retry delay in ms for a given attempt number, from
`getRetryDelay` in DeliverWebhookJob: `intervals[attemptNumber] || last`. -/
def getRetryDelay (testMode : Bool) (attemptNumber : Nat) : Nat :=
  if testMode then jsFallback (testIntervals.getD attemptNumber 0) 20000
  else jsFallback (prodIntervals.getD attemptNumber 0) 7200000

/-- Next retry timestamp: `Date.now() + getRetryDelay(attemptNumber)`. -/
def calculateNextRetry (testMode : Bool) (now attemptNumber : Nat) : Nat :=
  now + getRetryDelay testMode attemptNumber

/-- Result of the outbound `axios.post`: either the server responded with
some status and (serialized) body, or the request failed on the network
with only an error message. -/
inductive HttpResult
  | response (status : Nat) (body : String)
  | networkError (message : String)
  deriving DecidableEq, Repr

/-- JS `s.substring(0, n)`: the first `n` UTF-16 units; modelled on the
character sequence of the string. -/
def substringTo (s : String) (n : Nat) : String :=
  String.mk (s.data.take n)

/-- The local variables `responseCode` / `responseBody` /
`deliverySuccess` after the try/catch around `axios.post`.  Axios resolves
the promise exactly for 2xx statuses (default `validateStatus`); other
statuses surface as an error carrying `error.response`, and network
failures carry no response (`responseCode = 0`). -/
structure AttemptOutcome where
  responseCode : Nat
  responseBody : String
  deliverySuccess : Bool
  deriving DecidableEq, Repr

/-- Evaluate the HTTP call outcome as the delivery job's try/catch does. -/
def evalHttpResult : HttpResult → AttemptOutcome
  | HttpResult.response s b =>
      if 200 ≤ s ∧ s < 300 then
        { responseCode := s
          responseBody := substringTo b 1000
          deliverySuccess := decide (200 ≤ s) && decide (s < 300) }
      else
        { responseCode := s
          responseBody := substringTo b 1000
          deliverySuccess := false }
  | HttpResult.networkError msg =>
      { responseCode := 0, responseBody := msg, deliverySuccess := false }

/-- A webhook delivery job enqueued on the `webhook-delivery` queue,
with its scheduling delay in ms. -/
structure WebhookJob where
  webhookLogId : Nat
  delay : Nat
  deriving DecidableEq, Repr

/-- Core of `deliverWebhook` once merchant and log are loaded: given the
current log row and the HTTP outcome, produce the updated row that is
persisted and the retry job (if any) that is re-enqueued. -/
def deliverWebhookUpdate (testMode : Bool) (now logId : Nat)
    (log : WebhookLog) (res : HttpResult) : WebhookLog × Option WebhookJob :=
  let currentAttempts := log.attempts + 1
  let out := evalHttpResult res
  if out.deliverySuccess then
    ({ log with
        status := WebhookStatus.success
        attempts := currentAttempts
        lastAttemptAt := some now
        responseCode := some out.responseCode
        responseBody := some out.responseBody }, none)
  else
    let nextRetryAt := calculateNextRetry testMode now currentAttempts
    let newStatus :=
      if currentAttempts ≥ 5 then WebhookStatus.failed else WebhookStatus.pending
    let updated : WebhookLog :=
      { log with
          status := newStatus
          attempts := currentAttempts
          lastAttemptAt := some now
          nextRetryAt := some nextRetryAt
          responseCode := some out.responseCode
          responseBody := some out.responseBody }
    if currentAttempts < 5 then
      (updated, some { webhookLogId := logId, delay := getRetryDelay testMode currentAttempts })
    else
      (updated, none)

/-- Manual operator retry (`POST /api/v1/webhooks/:webhook_id/retry`):
reset the log row. -/
def manualRetryUpdate (log : WebhookLog) : WebhookLog :=
  { log with attempts := 0, status := WebhookStatus.pending, nextRetryAt := none }

/-- Manual operator retry: the job re-enqueued by the route; `add` is
called without a delay option, so the delay is Bull's default `0`. -/
def manualRetryJob (logId : Nat) : WebhookJob :=
  { webhookLogId := logId, delay := 0 }

/-! ## Payments, refunds and the synchronous API routes -/

/-- Status column of a `payments` row. -/
inductive PaymentStatus
  | pending
  | success
  | failed
  deriving DecidableEq, Repr

/-- Status column of a `refunds` row (`pending` at insert, `processed`
set by the refund worker). -/
inductive RefundStatus
  | pending
  | processed
  deriving DecidableEq, Repr

/-- One `refunds` row. -/
structure Refund where
  id : Nat
  paymentId : Nat
  amount : Nat
  reason : String
  status : RefundStatus
  processedAt : Option Nat
  deriving DecidableEq, Repr

/-- One `payments` row (the columns the refund path reads). -/
structure Payment where
  id : Nat
  amount : Nat
  status : PaymentStatus
  deriving DecidableEq, Repr

/-- The creation-time and worker-time refund sum:
`SELECT COALESCE(SUM(amount), 0) FROM refunds
 WHERE payment_id = $1 AND status IN ('pending', 'processed')`. -/
def totalRefunded (refunds : List Refund) (paymentId : Nat) : Nat :=
  ((refunds.filter (fun r =>
      r.paymentId == paymentId &&
        (r.status == RefundStatus.pending || r.status == RefundStatus.processed))).map
    (fun r => r.amount)).sum

/-- State touched by the refund route and the refund worker. -/
structure RefundApiState where
  payments : List Payment
  refunds : List Refund
  refundQueue : List Nat
  deriving DecidableEq, Repr

/-- Outcome of `POST /api/v1/payments/:payment_id/refunds`. -/
inductive RefundCreateResult
  | errorResp (httpStatus : Nat) (code description : String)
  | created (refund : Refund)
  deriving DecidableEq, Repr

/-- The refund-creation route.  `amount` is the JS request-body number
(an `Int` here; `!amount || amount <= 0` collapses to `amount ≤ 0`).
`freshId` stands for the generated `rfnd_<random>` id. -/
def createRefund (st : RefundApiState) (paymentId : Nat) (amount : Int)
    (reason : String) (freshId : Nat) : RefundCreateResult × RefundApiState :=
  match st.payments.find? (fun p => p.id == paymentId) with
  | none => (RefundCreateResult.errorResp 404 "NOT_FOUND_ERROR" "Payment not found", st)
  | some payment =>
    if payment.status ≠ PaymentStatus.success then
      (RefundCreateResult.errorResp 400 "BAD_REQUEST_ERROR" "Payment not in refundable state", st)
    else
      let total : Int := totalRefunded st.refunds paymentId
      let availableAmount : Int := (payment.amount : Int) - total
      if amount ≤ 0 then
        (RefundCreateResult.errorResp 400 "BAD_REQUEST_ERROR"
          "Refund amount must be a positive integer", st)
      else if amount > availableAmount then
        (RefundCreateResult.errorResp 400 "BAD_REQUEST_ERROR"
          "Refund amount exceeds available amount", st)
      else
        let refund : Refund :=
          { id := freshId, paymentId := paymentId, amount := amount.toNat
            reason := reason, status := RefundStatus.pending, processedAt := none }
        (RefundCreateResult.created refund,
          { st with
              refunds := st.refunds ++ [refund]
              refundQueue := st.refundQueue ++ [freshId] })

/-- The refund worker (`processRefund` in ProcessRefundJob): every thrown
error is an `Except.error`; on success the refund row becomes
`processed` with `processed_at = now`. -/
def processRefund (st : RefundApiState) (refundId now : Nat) :
    Except String (RefundApiState × Refund) :=
  match st.refunds.find? (fun r => r.id == refundId) with
  | none => Except.error "Refund not found"
  | some refund =>
    match st.payments.find? (fun p => p.id == refund.paymentId) with
    | none => Except.error "Payment not found"
    | some payment =>
      if payment.status ≠ PaymentStatus.success then
        Except.error "Payment not in refundable state"
      else if totalRefunded st.refunds refund.paymentId > payment.amount then
        Except.error "Refund amount exceeds payment amount"
      else
        Except.ok
          ({ st with
              refunds := st.refunds.map (fun r =>
                if r.id == refundId then
                  { r with status := RefundStatus.processed, processedAt := some now }
                else r) }, refund)

/-! ## Idempotency-key cache and payment creation -/

/-- One `idempotency_keys` row: the cached JSON response and its expiry. -/
structure IdemRecord where
  response : String
  expiresAt : Nat
  deriving DecidableEq, Repr

/-- The `idempotency_keys` table, keyed by (key, merchant_id). -/
abbrev IdemStore := List ((String × Nat) × IdemRecord)

/-- Row lookup by the composite primary key. -/
def idemLookup (store : IdemStore) (k : String × Nat) : Option IdemRecord :=
  (store.find? (fun e => e.1 == k)).map (fun e => e.2)

/-- `checkIdempotencyKey`: return the cached response, or purge the row
and report absent when `now >= expires_at` (lazy expiry). -/
def checkIdempotencyKey (now : Nat) (store : IdemStore) (key : String)
    (merchantId : Nat) : Option String × IdemStore :=
  match idemLookup store (key, merchantId) with
  | none => (none, store)
  | some record =>
    if record.expiresAt ≤ now then
      (none, store.filter (fun e => !(e.1 == (key, merchantId))))
    else
      (some record.response, store)

/-- `storeIdempotencyKey`: upsert on (key, merchant_id) conflict, always
resetting `expires_at` to now + 24h. -/
def storeIdempotencyKey (now : Nat) (store : IdemStore) (key : String)
    (merchantId : Nat) (response : String) : IdemStore :=
  let expiresAt := now + 24 * 60 * 60 * 1000
  if (store.find? (fun e => e.1 == (key, merchantId))).isSome then
    store.map (fun e =>
      if e.1 == (key, merchantId) then (e.1, { response := response, expiresAt := expiresAt }) else e)
  else
    store ++ [((key, merchantId), { response := response, expiresAt := expiresAt })]

/-- One `orders` row (the columns payment creation reads). -/
structure Order where
  id : Nat
  merchantId : Nat
  amount : Nat
  currency : String
  deriving DecidableEq, Repr

/-- One `payments` row as inserted by `POST /api/v1/payments`. -/
structure PaymentRow where
  id : Nat
  orderId : Nat
  merchantId : Nat
  amount : Nat
  currency : String
  method : String
  cardNumber : Option String
  cardExpiry : Option String
  cardCvv : Option String
  vpa : Option String
  status : PaymentStatus
  deriving DecidableEq, Repr

/-- State touched by the payment-creation route. -/
structure GatewayState where
  orders : List Order
  payments : List PaymentRow
  idem : IdemStore
  paymentQueue : List Nat
  deriving DecidableEq, Repr

/-- Request body plus Idempotency-Key header of `POST /api/v1/payments`. -/
structure CreatePaymentReq where
  orderId : Nat
  method : String
  cardNumber : Option String
  cardExpiry : Option String
  cardCvv : Option String
  vpa : Option String
  idempotencyKey : Option String
  deriving DecidableEq, Repr

/-- HTTP response of the payment-creation route. -/
inductive CreatePaymentResp
  | ok (httpStatus : Nat) (body : String)
  | errorResp (httpStatus : Nat) (code description : String)
  deriving DecidableEq, Repr

/-- Serialization of the 201 response body built by the route (a fixed
rendering of the returned payment fields; its exact shape is irrelevant,
only that the same body is cached and replayed verbatim). -/
def paymentResponseBody (p : PaymentRow) : String :=
  String.intercalate "|"
    [toString p.id, toString p.orderId, toString p.amount, p.currency, p.method,
      p.vpa.getD "", p.cardNumber.getD "", "pending"]

/-- `POST /api/v1/payments`: idempotency check, order lookup, method
validation, insert of the pending payment, enqueue of exactly one
`process-payment` job, idempotency store, 201 response.  `freshId`
stands for the generated `pay_<random>` id. -/
def createPayment (now : Nat) (st : GatewayState) (merchantId : Nat)
    (req : CreatePaymentReq) (freshId : Nat) : CreatePaymentResp × GatewayState :=
  let idemHit :=
    match req.idempotencyKey with
    | some k => checkIdempotencyKey now st.idem k merchantId
    | none => (none, st.idem)
  match idemHit.1 with
  | some cached => (CreatePaymentResp.ok 201 cached, { st with idem := idemHit.2 })
  | none =>
    let st1 : GatewayState := { st with idem := idemHit.2 }
    match st1.orders.find? (fun o => o.id == req.orderId && o.merchantId == merchantId) with
    | none => (CreatePaymentResp.errorResp 404 "NOT_FOUND_ERROR" "Order not found", st1)
    | some order =>
      if !(req.method == "card" || req.method == "upi") then
        (CreatePaymentResp.errorResp 400 "BAD_REQUEST_ERROR" "Invalid payment method", st1)
      else if req.method == "card" &&
          (req.cardNumber.isNone || req.cardExpiry.isNone || req.cardCvv.isNone) then
        (CreatePaymentResp.errorResp 400 "BAD_REQUEST_ERROR"
          "Card details are required for card payments", st1)
      else if req.method == "upi" && req.vpa.isNone then
        (CreatePaymentResp.errorResp 400 "BAD_REQUEST_ERROR"
          "VPA is required for UPI payments", st1)
      else
        let payment : PaymentRow :=
          { id := freshId, orderId := req.orderId, merchantId := merchantId
            amount := order.amount, currency := order.currency, method := req.method
            cardNumber := req.cardNumber, cardExpiry := req.cardExpiry
            cardCvv := req.cardCvv, vpa := req.vpa, status := PaymentStatus.pending }
        let body := paymentResponseBody payment
        let idem2 :=
          match req.idempotencyKey with
          | some k => storeIdempotencyKey now st1.idem k merchantId body
          | none => st1.idem
        (CreatePaymentResp.ok 201 body,
          { st1 with
              payments := st1.payments ++ [payment]
              paymentQueue := st1.paymentQueue ++ [freshId]
              idem := idem2 })

/-! ## Payment lifecycle as a transition system (API + payment worker) -/

/-- Global state for the payment lifecycle: the `payments` table as a
partial map from payment id to status, and the `payment-processing`
queue as the list of payment ids with a pending job. -/
structure ProcState where
  payments : Nat → Option PaymentStatus
  jobs : List Nat

/-- Effect of `POST /api/v1/payments` on this state: insert the payment
with status `pending` and enqueue one `process-payment` job. -/
def apiCreate (s : ProcState) (pid : Nat) : ProcState :=
  { payments := fun q => if q = pid then some PaymentStatus.pending else s.payments q
    jobs := pid :: s.jobs }

/-- Effect of one run of the payment worker (`processPayment`) on a job
for `pid`: the job is consumed and the payment row is written to a
terminal status decided by the (simulated) settlement outcome. -/
def workerRun (s : ProcState) (pid : Nat) (outcomeOk : Bool) : ProcState :=
  { payments := fun q =>
      if q = pid then
        some (if outcomeOk then PaymentStatus.success else PaymentStatus.failed)
      else s.payments q
    jobs := s.jobs.erase pid }

/-- One step of the system: either the API creates a payment under a
fresh id, or a worker consumes a due job whose payment row exists
(`processPayment` throws when the row is missing, so no row update
happens in that case). -/
inductive ProcStep : ProcState → ProcState → Prop
  | create {s : ProcState} (pid : Nat) (hfresh : s.payments pid = none) :
      ProcStep s (apiCreate s pid)
  | run {s : ProcState} (pid : Nat) (outcomeOk : Bool) (hjob : pid ∈ s.jobs)
      (hrow : (s.payments pid).isSome) :
      ProcStep s (workerRun s pid outcomeOk)

/-- Reflexive-transitive closure of `ProcStep`. -/
inductive ProcSteps : ProcState → ProcState → Prop
  | refl {s : ProcState} : ProcSteps s s
  | tail {s t u : ProcState} (h1 : ProcSteps s t) (h2 : ProcStep t u) : ProcSteps s u

/-- The system invariant: a payment has exactly one queued job while it
is `pending` and none otherwise (in particular none once terminal). -/
def ProcInv (s : ProcState) : Prop :=
  ∀ pid, s.jobs.count pid = (if s.payments pid = some PaymentStatus.pending then 1 else 0)

/-- The empty initial state. -/
def procInit : ProcState := { payments := fun _ => none, jobs := [] }

/-! ## Best-effort webhook emission (`createWebhookLog`) -/

/-- One `webhook_logs` row as inserted by `createWebhookLog`. -/
structure WebhookLogRow where
  merchantId : Nat
  event : String
  payload : String
  status : WebhookStatus
  attempts : Nat
  deriving DecidableEq, Repr

/-- A `deliver-webhook` job as enqueued by `createWebhookLog`. -/
structure WebhookJobData where
  webhookLogId : Nat
  merchantId : Nat
  event : String
  deriving DecidableEq, Repr

/-- State touched by `createWebhookLog`: the `webhook_logs` table and
the `webhook-delivery` queue. -/
structure WhState where
  logs : List WebhookLogRow
  whQueue : List WebhookJobData
  deriving DecidableEq, Repr

/-- The merchant columns `createWebhookLog` reads. -/
structure MerchantRow where
  webhookUrl : Option String
  webhookSecret : String
  deriving DecidableEq, Repr

/-- Which of the three effectful calls inside `createWebhookLog` throws,
if any: the merchant `SELECT`, the log `INSERT`, or `webhookQueue.add`. -/
inductive WhFault
  | fNone
  | fMerchantLookup
  | fInsert
  | fEnqueue
  deriving DecidableEq, Repr

/-- The body of `createWebhookLog` up to its catch handler: `Except.error`
carries the state reached when the exception was thrown (each SQL
statement commits on its own; there is no surrounding transaction). -/
def createWebhookLogInner (merchant : Option MerchantRow) (fault : WhFault)
    (st : WhState) (merchantId : Nat) (event payloadStr : String)
    (newLogId : Nat) : Except WhState WhState :=
  if fault = WhFault.fMerchantLookup then Except.error st
  else
    match merchant with
    | none => Except.ok st
    | some m =>
      match m.webhookUrl with
      | none => Except.ok st
      | some _ =>
        if fault = WhFault.fInsert then Except.error st
        else
          let st1 : WhState :=
            { st with
                logs := st.logs ++
                  [{ merchantId := merchantId, event := event, payload := payloadStr
                     status := WebhookStatus.pending, attempts := 0 }] }
          if fault = WhFault.fEnqueue then Except.error st1
          else
            Except.ok
              { st1 with
                  whQueue := st1.whQueue ++
                    [{ webhookLogId := newLogId, merchantId := merchantId, event := event }] }

/-- `createWebhookLog` with its catch handler: any error is logged and
swallowed, never propagated to the calling worker. -/
def createWebhookLog (merchant : Option MerchantRow) (fault : WhFault)
    (st : WhState) (merchantId : Nat) (event payloadStr : String)
    (newLogId : Nat) : WhState :=
  match createWebhookLogInner merchant fault st merchantId event payloadStr newLogId with
  | Except.ok s => s
  | Except.error s => s

/-- Tail of the payment worker's success/failure branch: write the
terminal status, then emit the webhook event.  Returns the payments map
and the webhook state; the handler itself never throws past this point
because `createWebhookLog` swallows its errors. -/
def paymentWorkerFinish (payments : Nat → Option PaymentStatus) (pid : Nat)
    (outcomeOk : Bool) (merchant : Option MerchantRow) (fault : WhFault)
    (wh : WhState) (merchantId : Nat) (payloadStr : String) (newLogId : Nat) :
    (Nat → Option PaymentStatus) × WhState :=
  let payments2 := fun q =>
    if q = pid then
      some (if outcomeOk then PaymentStatus.success else PaymentStatus.failed)
    else payments q
  let event := if outcomeOk then "payment.success" else "payment.failed"
  let wh2 := createWebhookLog merchant fault wh merchantId event payloadStr newLogId
  (payments2, wh2)

/-! ## HMAC-SHA256 webhook signing (`crypto.createHmac('sha256', secret)`)

Bytes are naturals below 256; 32-bit words are naturals reduced modulo
`2 ^ 32` after every arithmetic step, as in FIPS 180-4. -/

/-- Reduce to a 32-bit word. -/
def w32 (n : Nat) : Nat := n % 4294967296

/-- Right rotation of a 32-bit word. -/
def rotr32 (n x : Nat) : Nat := w32 ((x >>> n) ||| (x <<< (32 - n)))

/-- `Ch(x,y,z)`; the complement is a 32-bit xor with all-ones. -/
def shaCh (x y z : Nat) : Nat := (x &&& y) ^^^ ((x ^^^ 4294967295) &&& z)

/-- `Maj(x,y,z)`. -/
def shaMaj (x y z : Nat) : Nat := (x &&& y) ^^^ (x &&& z) ^^^ (y &&& z)

/-- Big sigma 0. -/
def bsig0 (x : Nat) : Nat := rotr32 2 x ^^^ rotr32 13 x ^^^ rotr32 22 x

/-- Big sigma 1. -/
def bsig1 (x : Nat) : Nat := rotr32 6 x ^^^ rotr32 11 x ^^^ rotr32 25 x

/-- Small sigma 0. -/
def ssig0 (x : Nat) : Nat := rotr32 7 x ^^^ rotr32 18 x ^^^ (x >>> 3)

/-- Small sigma 1. -/
def ssig1 (x : Nat) : Nat := rotr32 17 x ^^^ rotr32 19 x ^^^ (x >>> 10)

/-- The 64 SHA-256 round constants. -/
def sha256K : List Nat :=
  [1116352408, 1899447441, 3049323471, 3921009573, 961987163, 1508970993,
   2453635748, 2870763221, 3624381080, 310598401, 607225278, 1426881987,
   1925078388, 2162078206, 2614888103, 3248222580, 3835390401, 4022224774,
   264347078, 604807628, 770255983, 1249150122, 1555081692, 1996064986,
   2554220882, 2821834349, 2952996808, 3210313671, 3336571891, 3584528711,
   113926993, 338241895, 666307205, 773529912, 1294757372, 1396182291,
   1695183700, 1986661051, 2177026350, 2456956037, 2730485921, 2820302411,
   3259730800, 3345764771, 3516065817, 3600352804, 4094571909, 275423344,
   430227734, 506948616, 659060556, 883997877, 958139571, 1322822218,
   1537002063, 1747873779, 1955562222, 2024104815, 2227730452, 2361852424,
   2428436474, 2756734187, 3204031479, 3329325298]

/-- The eight SHA-256 initial hash values. -/
def sha256IV : List Nat :=
  [1779033703, 3144134277, 1013904242, 2773480762,
   1359893119, 2600822924, 528734635, 1541459225]

/-- Extend a 16-word block to the 64-word message schedule. -/
def buildSchedule (block : List Nat) : List Nat :=
  ((List.range 48).foldl (fun acc i =>
      acc.push (w32 (ssig1 (acc.getD (i + 14) 0) + acc.getD (i + 9) 0 +
        ssig0 (acc.getD (i + 1) 0) + acc.getD i 0))) block.toArray).toList

/-- One compression round on the working variables `[a,b,c,d,e,f,g,h]`. -/
def sha256Round (st : List Nat) (kw : Nat × Nat) : List Nat :=
  match st with
  | [a, b, c, d, e, f, g, h] =>
    let t1 := w32 (h + bsig1 e + shaCh e f g + kw.1 + kw.2)
    let t2 := w32 (bsig0 a + shaMaj a b c)
    [w32 (t1 + t2), a, b, c, w32 (d + t1), e, f, g]
  | other => other

/-- Compress one 16-word block into the running hash. -/
def sha256Compress (hs block : List Nat) : List Nat :=
  let fin := (sha256K.zip (buildSchedule block)).foldl sha256Round hs
  List.zipWith (fun x y => w32 (x + y)) hs fin

/-- 8-byte big-endian encoding. -/
def be64 (n : Nat) : List Nat :=
  [(n >>> 56) % 256, (n >>> 48) % 256, (n >>> 40) % 256, (n >>> 32) % 256,
   (n >>> 24) % 256, (n >>> 16) % 256, (n >>> 8) % 256, n % 256]

/-- SHA-256 padding: `0x80`, zeros to 56 mod 64, 64-bit bit length. -/
def sha256Pad (msg : List Nat) : List Nat :=
  msg ++ [128] ++ List.replicate ((119 - msg.length % 64) % 64) 0 ++ be64 (8 * msg.length)

/-- Group bytes into big-endian 32-bit words. -/
def bytesToWords : List Nat → List Nat
  | b0 :: b1 :: b2 :: b3 :: rest => (((b0 * 256 + b1) * 256 + b2) * 256 + b3) :: bytesToWords rest
  | _ => []

/-- Split a word list into 16-word blocks. -/
def chunksOf16 : List Nat → List (List Nat)
  | [] => []
  | w :: rest => (w :: rest.take 15) :: chunksOf16 (rest.drop 15)
termination_by l => l.length
decreasing_by simp [List.length_drop]; omega

/-- 4-byte big-endian encoding of a 32-bit word. -/
def wordToBytes (w : Nat) : List Nat :=
  [(w >>> 24) % 256, (w >>> 16) % 256, (w >>> 8) % 256, w % 256]

/-- SHA-256 of a byte sequence, as a 32-byte sequence. -/
def sha256 (msg : List Nat) : List Nat :=
  ((chunksOf16 (bytesToWords (sha256Pad msg))).foldl sha256Compress sha256IV).flatMap wordToBytes

/-- HMAC key normalization (RFC 2104): hash keys longer than the 64-byte
block, then zero-pad to the block size. -/
def hmacBlockKey (key : List Nat) : List Nat :=
  let k0 := if 64 < key.length then sha256 key else key
  k0 ++ List.replicate (64 - k0.length) 0

/-- HMAC-SHA256 over byte sequences. -/
def hmacSha256 (key msg : List Nat) : List Nat :=
  let k := hmacBlockKey key
  sha256 ((k.map (fun b => b ^^^ 92)) ++ sha256 ((k.map (fun b => b ^^^ 54)) ++ msg))

/-- Lower-case hex digit. -/
def hexDigit (n : Nat) : Char :=
  if n < 10 then Char.ofNat (48 + n) else Char.ofNat (87 + n)

/-- Two hex digits of one byte. -/
def byteToHex (b : Nat) : List Char :=
  [hexDigit (b / 16), hexDigit (b % 16)]

/-- Hex encoding of a byte sequence (`digest('hex')`). -/
def toHexString (bs : List Nat) : String :=
  String.mk (bs.flatMap byteToHex)

/-- `generateWebhookSignature` / the inline signing in `deliverWebhook`:
hex HMAC-SHA256 of the serialized payload bytes, keyed by the merchant's
webhook secret. -/
def generateWebhookSignature (payloadBytes secretBytes : List Nat) : String :=
  toHexString (hmacSha256 secretBytes payloadBytes)

/-- The outbound HTTP POST built by `deliverWebhook`: the body is the
serialized payload string itself, and the `X-Webhook-Signature` header
carries the signature computed over those same bytes. -/
structure OutboundWebhookRequest where
  body : List Nat
  signatureHeader : String
  deriving DecidableEq, Repr

/-- Build the outbound request exactly as `deliverWebhook` does. -/
def buildWebhookRequest (secretBytes payloadBytes : List Nat) : OutboundWebhookRequest :=
  { body := payloadBytes
    signatureHeader := generateWebhookSignature payloadBytes secretBytes }

/-- Receiver-side verification (test-merchant webhook receiver): accept
iff the received header equals the HMAC recomputed over the raw body. -/
def verifyWebhookSignature (secretBytes rawBody : List Nat) (signature : String) : Bool :=
  signature == toHexString (hmacSha256 secretBytes rawBody)

/-! ## Helper lemmas -/

lemma getRetryDelay_prod (n : Nat) (h : 1 ≤ n) :
    getRetryDelay false n = prodIntervals.getD (min n 4) 0 := by
  match n, h with
  | 1, _ => decide
  | 2, _ => decide
  | 3, _ => decide
  | 4, _ => decide
  | (m + 5), _ =>
    have hmin : min (m + 5) 4 = 4 := by omega
    rw [hmin]
    simp [getRetryDelay, prodIntervals, jsFallback, List.getD]

/-! ## Claim theorems -/

/-- C1: on a failed webhook delivery attempt (non-2xx or network error,
production intervals), the attempts counter is incremented by exactly
one, the status becomes `pending` below 5 attempts and `failed`
otherwise, `next_retry_at` is now plus the production delay table
indexed by the new attempts count (clamped to the last entry beyond
index 4), and a retry job with that delay is enqueued iff the new
attempts count is below 5. -/
theorem webhook_failure_retry_schedule (now logId : Nat) (log : WebhookLog)
    (res : HttpResult) (hfail : (evalHttpResult res).deliverySuccess = false) :
    (deliverWebhookUpdate false now logId log res).1.attempts = log.attempts + 1 ∧
    (deliverWebhookUpdate false now logId log res).1.status =
      (if log.attempts + 1 < 5 then WebhookStatus.pending else WebhookStatus.failed) ∧
    (deliverWebhookUpdate false now logId log res).1.nextRetryAt =
      some (now + prodIntervals.getD (min (log.attempts + 1) 4) 0) ∧
    (deliverWebhookUpdate false now logId log res).2 =
      (if log.attempts + 1 < 5 then
        some { webhookLogId := logId, delay := prodIntervals.getD (min (log.attempts + 1) 4) 0 }
      else none) := by
  have hd := getRetryDelay_prod (log.attempts + 1) (by omega)
  by_cases h5 : log.attempts + 1 < 5
  · have h5n : ¬ log.attempts + 1 ≥ 5 := by omega
    simp [deliverWebhookUpdate, calculateNextRetry, hfail, h5, h5n, hd]
  · have h5y : log.attempts + 1 ≥ 5 := by omega
    simp [deliverWebhookUpdate, calculateNextRetry, hfail, h5, h5y, hd]

/-- C1 witness: a first failing attempt (HTTP 500) at a fresh log. -/
theorem webhook_failure_retry_schedule_witness :
    (evalHttpResult (HttpResult.response 500 "oops")).deliverySuccess = false ∧
    ((deliverWebhookUpdate false 0 3
        { attempts := 0, status := WebhookStatus.pending, lastAttemptAt := none
          nextRetryAt := none, responseCode := none, responseBody := none }
        (HttpResult.response 500 "oops")).1.attempts = 0 + 1 ∧
      (deliverWebhookUpdate false 0 3
        { attempts := 0, status := WebhookStatus.pending, lastAttemptAt := none
          nextRetryAt := none, responseCode := none, responseBody := none }
        (HttpResult.response 500 "oops")).1.status =
        (if 0 + 1 < 5 then WebhookStatus.pending else WebhookStatus.failed) ∧
      (deliverWebhookUpdate false 0 3
        { attempts := 0, status := WebhookStatus.pending, lastAttemptAt := none
          nextRetryAt := none, responseCode := none, responseBody := none }
        (HttpResult.response 500 "oops")).1.nextRetryAt =
        some (0 + prodIntervals.getD (min (0 + 1) 4) 0) ∧
      (deliverWebhookUpdate false 0 3
        { attempts := 0, status := WebhookStatus.pending, lastAttemptAt := none
          nextRetryAt := none, responseCode := none, responseBody := none }
        (HttpResult.response 500 "oops")).2 =
        (if 0 + 1 < 5 then
          some { webhookLogId := 3, delay := prodIntervals.getD (min (0 + 1) 4) 0 }
        else none)) :=
  ⟨by decide,
    webhook_failure_retry_schedule 0 3
      { attempts := 0, status := WebhookStatus.pending, lastAttemptAt := none
        nextRetryAt := none, responseCode := none, responseBody := none }
      (HttpResult.response 500 "oops") (by decide)⟩

lemma evalHttpResult_success_iff (s : Nat) (b : String) :
    (evalHttpResult (HttpResult.response s b)).deliverySuccess = true ↔
      (200 ≤ s ∧ s < 300) := by
  by_cases h : 200 ≤ s ∧ s < 300 <;>
    simp [evalHttpResult, h, Bool.and_eq_true, decide_eq_true_eq]

lemma deliverWebhookUpdate_status_of_fail (tm : Bool) (now logId : Nat)
    (log : WebhookLog) (res : HttpResult)
    (hfail : (evalHttpResult res).deliverySuccess = false) :
    (deliverWebhookUpdate tm now logId log res).1.status =
      (if log.attempts + 1 ≥ 5 then WebhookStatus.failed else WebhookStatus.pending) := by
  by_cases h5 : log.attempts + 1 < 5
  · have h5n : ¬ log.attempts + 1 ≥ 5 := by omega
    simp [deliverWebhookUpdate, hfail, h5, h5n]
  · have h5y : log.attempts + 1 ≥ 5 := by omega
    simp [deliverWebhookUpdate, hfail, h5, h5y]

set_option maxRecDepth 4000 in
/-- C6: a delivery attempt succeeds iff the HTTP status is in [200, 300);
a network failure is recorded with response code 0 and is a failure; on
success the log is persisted with status `success`, attempts incremented,
`last_attempt_at` = now, the response code, and the response body
truncated to at most 1000 characters. -/
theorem webhook_delivery_outcome (tm : Bool) (now logId : Nat) (log : WebhookLog)
    (res : HttpResult) :
    ((deliverWebhookUpdate tm now logId log res).1.status = WebhookStatus.success ↔
      (∃ s b, res = HttpResult.response s b ∧ 200 ≤ s ∧ s < 300)) ∧
    (∀ msg, res = HttpResult.networkError msg →
      (deliverWebhookUpdate tm now logId log res).1.responseCode = some 0 ∧
      (deliverWebhookUpdate tm now logId log res).1.status ≠ WebhookStatus.success) ∧
    (∀ s b, res = HttpResult.response s b → 200 ≤ s → s < 300 →
      (deliverWebhookUpdate tm now logId log res).1 =
        { log with
            status := WebhookStatus.success, attempts := log.attempts + 1
            lastAttemptAt := some now, responseCode := some s
            responseBody := some (substringTo b 1000) } ∧
      (substringTo b 1000).length ≤ 1000) := by
  refine ⟨?_, ?_, ?_⟩
  · constructor
    · intro hs
      cases res with
      | response s b =>
        have h2xx : 200 ≤ s ∧ s < 300 := by
          by_contra hno
          have hfl : (evalHttpResult (HttpResult.response s b)).deliverySuccess = false := by
            cases hb : (evalHttpResult (HttpResult.response s b)).deliverySuccess with
            | false => rfl
            | true => exact absurd ((evalHttpResult_success_iff s b).mp hb) hno
          have hst := deliverWebhookUpdate_status_of_fail tm now logId log _ hfl
          rw [hs] at hst
          by_cases h5 : log.attempts + 1 ≥ 5 <;> simp [h5] at hst
        exact ⟨s, b, rfl, h2xx.1, h2xx.2⟩
      | networkError msg =>
        have hfl : (evalHttpResult (HttpResult.networkError msg)).deliverySuccess = false := rfl
        have hst := deliverWebhookUpdate_status_of_fail tm now logId log _ hfl
        rw [hs] at hst
        by_cases h5 : log.attempts + 1 ≥ 5 <;> simp [h5] at hst
    · rintro ⟨s, b, rfl, h1, h2⟩
      have hsucc : (evalHttpResult (HttpResult.response s b)).deliverySuccess = true :=
        (evalHttpResult_success_iff s b).mpr ⟨h1, h2⟩
      simp [deliverWebhookUpdate, hsucc]
  · rintro msg rfl
    have hfl : (evalHttpResult (HttpResult.networkError msg)).deliverySuccess = false := rfl
    constructor
    · by_cases h5 : log.attempts + 1 < 5
      · have h5n : ¬ log.attempts + 1 ≥ 5 := by omega
        simp [deliverWebhookUpdate, hfl, evalHttpResult, h5, h5n]
      · have h5y : log.attempts + 1 ≥ 5 := by omega
        simp [deliverWebhookUpdate, hfl, evalHttpResult, h5, h5y]
    · intro hs
      have hst := deliverWebhookUpdate_status_of_fail tm now logId log _ hfl
      rw [hs] at hst
      by_cases h5 : log.attempts + 1 ≥ 5 <;> simp [h5] at hst
  · rintro s b rfl h1 h2
    have he : evalHttpResult (HttpResult.response s b) =
        { responseCode := s, responseBody := substringTo b 1000
          deliverySuccess := decide (200 ≤ s) && decide (s < 300) } := by
      rw [evalHttpResult]
      rw [if_pos ⟨h1, h2⟩]
    constructor
    · simp [deliverWebhookUpdate, he, h1, h2]
    · have hlen : (substringTo b 1000).length = (b.data.take 1000).length := rfl
      rw [hlen, List.length_take]
      omega

/-- C6 witness: a 204 success and its persisted row. -/
theorem webhook_delivery_outcome_witness :
    (deliverWebhookUpdate false 7 3
        { attempts := 1, status := WebhookStatus.pending, lastAttemptAt := none
          nextRetryAt := none, responseCode := none, responseBody := none }
        (HttpResult.response 204 "ok")).1 =
      { attempts := 2, status := WebhookStatus.success, lastAttemptAt := some 7
        nextRetryAt := none, responseCode := some 204
        responseBody := some (substringTo "ok" 1000) } ∧
    (substringTo "ok" 1000).length ≤ 1000 :=
  (webhook_delivery_outcome false 7 3
      { attempts := 1, status := WebhookStatus.pending, lastAttemptAt := none
        nextRetryAt := none, responseCode := none, responseBody := none }
      (HttpResult.response 204 "ok")).2.2 204 "ok" rfl (by decide) (by decide)

/-- C8: manual operator retry resets the log to attempts = 0, status
`pending`, `next_retry_at` = NULL (overriding any existing value), and
re-enqueues a delivery job with zero delay, so the next delivery attempt
runs as attempt 1. -/
theorem manual_retry_restarts_schedule (log : WebhookLog) (logId : Nat)
    (tm : Bool) (now : Nat) (res : HttpResult) :
    (manualRetryUpdate log).attempts = 0 ∧
    (manualRetryUpdate log).status = WebhookStatus.pending ∧
    (manualRetryUpdate log).nextRetryAt = none ∧
    (manualRetryJob logId).delay = 0 ∧
    (deliverWebhookUpdate tm now logId (manualRetryUpdate log) res).1.attempts = 1 := by
  refine ⟨rfl, rfl, rfl, rfl, ?_⟩
  cases h : (evalHttpResult res).deliverySuccess with
  | true => simp [deliverWebhookUpdate, manualRetryUpdate, h]
  | false => simp [deliverWebhookUpdate, manualRetryUpdate, h]

lemma refundStatus_counted (s : RefundStatus) :
    (s == RefundStatus.pending || s == RefundStatus.processed) = true := by
  cases s <;> rfl

lemma totalRefunded_nil (pid : Nat) : totalRefunded [] pid = 0 := rfl

lemma totalRefunded_cons (r : Refund) (l : List Refund) (pid : Nat) :
    totalRefunded (r :: l) pid =
      (if r.paymentId = pid then r.amount else 0) + totalRefunded l pid := by
  by_cases h : r.paymentId = pid <;>
    simp [totalRefunded, List.filter_cons, refundStatus_counted, h]

lemma totalRefunded_append (l1 l2 : List Refund) (pid : Nat) :
    totalRefunded (l1 ++ l2) pid = totalRefunded l1 pid + totalRefunded l2 pid := by
  simp [totalRefunded, List.filter_append]

lemma totalRefunded_map_setProcessed (l : List Refund) (rid now pid : Nat) :
    totalRefunded (l.map (fun r =>
        if r.id == rid then
          { r with status := RefundStatus.processed, processedAt := some now }
        else r)) pid = totalRefunded l pid := by
  induction l with
  | nil => rfl
  | cons a l ih =>
    simp only [beq_iff_eq] at ih
    by_cases h : a.id = rid <;>
      simp [List.map_cons, totalRefunded_cons, h, ih]


/-- C2: the sum of amounts of a payment's refunds in status pending or
processed never exceeds the payment's amount: a refund accepted by the
creation route keeps the sum at or below the payment amount; the refund
worker re-computes the same sum, succeeds only when it is at or below
the payment amount (leaving the sum unchanged), and fails the job when
it exceeds it. -/
theorem refund_sum_invariant :
    (∀ st paymentId amount reason freshId payment refund st2,
      st.payments.find? (fun p => p.id == paymentId) = some payment →
      createRefund st paymentId amount reason freshId =
        (RefundCreateResult.created refund, st2) →
      totalRefunded st2.refunds paymentId ≤ payment.amount) ∧
    (∀ st refundId now st2 refund,
      processRefund st refundId now = Except.ok (st2, refund) →
      ∃ payment,
        st.payments.find? (fun p => p.id == refund.paymentId) = some payment ∧
        totalRefunded st.refunds refund.paymentId ≤ payment.amount ∧
        totalRefunded st2.refunds refund.paymentId =
          totalRefunded st.refunds refund.paymentId) ∧
    (∀ st refundId now refund payment,
      st.refunds.find? (fun r => r.id == refundId) = some refund →
      st.payments.find? (fun p => p.id == refund.paymentId) = some payment →
      payment.status = PaymentStatus.success →
      totalRefunded st.refunds refund.paymentId > payment.amount →
      processRefund st refundId now =
        Except.error "Refund amount exceeds payment amount") := by
  refine ⟨?_, ?_, ?_⟩
  · intro st paymentId amount reason freshId payment refund st2 hfind hcreate
    simp only [createRefund, hfind] at hcreate
    split_ifs at hcreate with hstat hle hgt
    · simp at hcreate
    · simp at hcreate
    · simp at hcreate
    · rw [Prod.mk.injEq] at hcreate
      obtain ⟨hrefund, hst2⟩ := hcreate
      subst hst2
      simp [totalRefunded_append, totalRefunded_cons, totalRefunded_nil]
      omega
  · intro st refundId now st2 refund hok
    rw [processRefund] at hok
    split at hok
    · simp at hok
    · rename_i r0 hfr
      split at hok
      · simp at hok
      · rename_i payment hfp
        split_ifs at hok with hstat hsum
        rw [Except.ok.injEq, Prod.mk.injEq] at hok
        obtain ⟨hst2, hrefund⟩ := hok
        subst hrefund
        subst hst2
        refine ⟨payment, hfp, by omega, ?_⟩
        simpa [beq_iff_eq] using
          totalRefunded_map_setProcessed st.refunds refundId now r0.paymentId
  · intro st refundId now refund payment hfr hfp hstatus hsum
    simp [processRefund, hfr, hfp, hstatus, hsum]

/-- C2 witness: a 60-unit refund against a 100-unit successful payment is
accepted by the route and the resulting pending/processed sum stays at or
below the payment amount. -/
theorem refund_sum_invariant_witness :
    totalRefunded [⟨5, 1, 60, "req", RefundStatus.pending, none⟩] 1 ≤
      (⟨1, 100, PaymentStatus.success⟩ : Payment).amount :=
  refund_sum_invariant.1
    ⟨[⟨1, 100, PaymentStatus.success⟩], [], []⟩ 1 60 "req" 5
    ⟨1, 100, PaymentStatus.success⟩
    ⟨5, 1, 60, "req", RefundStatus.pending, none⟩
    ⟨[⟨1, 100, PaymentStatus.success⟩], [⟨5, 1, 60, "req", RefundStatus.pending, none⟩], [5]⟩
    (by decide) (by decide)

/-- C7: a refund-creation request whose amount exceeds the payment's
amount minus the current pending/processed refund sum is rejected
synchronously with the state-conflict error
"Refund amount exceeds available amount", and the state (refund rows and
refund queue) is unchanged. -/
theorem refund_exceeds_available_rejected (st : RefundApiState) (paymentId : Nat)
    (amount : Int) (reason : String) (freshId : Nat) (payment : Payment)
    (hfind : st.payments.find? (fun p => p.id == paymentId) = some payment)
    (hstatus : payment.status = PaymentStatus.success)
    (hinv : totalRefunded st.refunds paymentId ≤ payment.amount)
    (hexceeds : amount >
      (payment.amount : Int) - (totalRefunded st.refunds paymentId : Int)) :
    createRefund st paymentId amount reason freshId =
      (RefundCreateResult.errorResp 400 "BAD_REQUEST_ERROR"
        "Refund amount exceeds available amount", st) := by
  have hpos : ¬ amount ≤ 0 := by omega
  simp [createRefund, hfind, hstatus, hpos, hexceeds]

/-- C7 witness: a 150-unit refund against a 100-unit payment with no
prior refunds is rejected and the state is unchanged. -/
theorem refund_exceeds_available_rejected_witness :
    createRefund ⟨[⟨1, 100, PaymentStatus.success⟩], [], []⟩ 1 150 "req" 5 =
      (RefundCreateResult.errorResp 400 "BAD_REQUEST_ERROR"
        "Refund amount exceeds available amount",
        ⟨[⟨1, 100, PaymentStatus.success⟩], [], []⟩) :=
  refund_exceeds_available_rejected
    ⟨[⟨1, 100, PaymentStatus.success⟩], [], []⟩ 1 150 "req" 5
    ⟨1, 100, PaymentStatus.success⟩
    (by decide) rfl (by decide) (by decide)

lemma idemLookup_filter_self (store : IdemStore) (k : String) (mid : Nat) :
    idemLookup (store.filter (fun e => !(e.1 == (k, mid)))) (k, mid) = none := by
  rw [idemLookup]
  have h : (store.filter (fun e => !(e.1 == (k, mid)))).find?
      (fun e => e.1 == (k, mid)) = none := by
    rw [List.find?_eq_none]
    intro x hx
    have hm := List.mem_filter.mp hx
    simpa using hm.2
  rw [h]
  rfl

lemma idemLookup_map_upsert (store : IdemStore) (k : String) (mid : Nat)
    (rec : IdemRecord) :
    idemLookup (store.map (fun e =>
      if e.1 == (k, mid) then (e.1, rec) else e)) (k, mid) =
      ((store.find? (fun e => e.1 == (k, mid))).map (fun _ => rec)) := by
  induction store with
  | nil => rfl
  | cons e es ih =>
    by_cases he : e.1 = (k, mid)
    · simp [idemLookup, he]
    · simp [idemLookup, he]
      simpa [idemLookup] using ih

lemma idemLookup_append_fresh (store : IdemStore) (k : String) (mid : Nat)
    (rec : IdemRecord)
    (hnone : store.find? (fun e => e.1 == (k, mid)) = none) :
    idemLookup (store ++ [((k, mid), rec)]) (k, mid) = some rec := by
  induction store with
  | nil => simp [idemLookup]
  | cons e es ih =>
    by_cases he : e.1 = (k, mid)
    · rw [List.find?_cons_of_pos _ (by simp [he])] at hnone
      exact absurd hnone (by simp)
    · rw [List.find?_cons_of_neg _ (by simp [he])] at hnone
      simp [idemLookup, he]
      simpa [idemLookup] using ih hnone

lemma idemLookup_store (now : Nat) (store : IdemStore) (k : String) (mid : Nat)
    (resp : String) :
    idemLookup (storeIdempotencyKey now store k mid resp) (k, mid) =
      some { response := resp, expiresAt := now + 24 * 60 * 60 * 1000 } := by
  cases hf : store.find? (fun e => e.1 == (k, mid)) with
  | none =>
    have hns : ¬ (store.find? (fun e => e.1 == (k, mid))).isSome = true := by
      rw [hf]; simp
    rw [storeIdempotencyKey]
    simp only [if_neg hns]
    exact idemLookup_append_fresh store k mid _ hf
  | some v =>
    have hs : (store.find? (fun e => e.1 == (k, mid))).isSome = true := by
      rw [hf]; rfl
    rw [storeIdempotencyKey]
    simp only [if_pos hs]
    rw [idemLookup_map_upsert store k mid _, hf]
    rfl

/-- C4: a payment-creation request carrying an Idempotency-Key for which
a non-expired cached entry exists for (key, merchant) returns the cached
response body verbatim with status 201, and leaves the whole state - in
particular the payments table and the payment queue - unchanged. -/
theorem idempotent_replay_returns_cached (now : Nat) (st : GatewayState)
    (merchantId : Nat) (req : CreatePaymentReq) (freshId : Nat) (k : String)
    (rec : IdemRecord)
    (hkey : req.idempotencyKey = some k)
    (hlook : idemLookup st.idem (k, merchantId) = some rec)
    (httl : now < rec.expiresAt) :
    createPayment now st merchantId req freshId =
      (CreatePaymentResp.ok 201 rec.response, st) ∧
    (createPayment now st merchantId req freshId).2.payments = st.payments ∧
    (createPayment now st merchantId req freshId).2.paymentQueue = st.paymentQueue := by
  have hn : ¬ rec.expiresAt ≤ now := by omega
  have hcheck : checkIdempotencyKey now st.idem k merchantId =
      (some rec.response, st.idem) := by
    rw [checkIdempotencyKey, hlook]
    simp [hn]
  have hmain : createPayment now st merchantId req freshId =
      (CreatePaymentResp.ok 201 rec.response, st) := by
    simp [createPayment, hkey, hcheck]
  exact ⟨hmain, by rw [hmain], by rw [hmain]⟩

/-- C4 witness: a concrete replay hit within the TTL. -/
theorem idempotent_replay_returns_cached_witness :
    createPayment 50 ⟨[], [], [(("k", 1), ⟨"cached-body", 100⟩)], []⟩ 1
        ⟨1, "upi", none, none, none, some "u", some "k"⟩ 9 =
      (CreatePaymentResp.ok 201 "cached-body",
        ⟨[], [], [(("k", 1), ⟨"cached-body", 100⟩)], []⟩) :=
  (idempotent_replay_returns_cached 50
    ⟨[], [], [(("k", 1), ⟨"cached-body", 100⟩)], []⟩ 1
    ⟨1, "upi", none, none, none, some "u", some "k"⟩ 9 "k" ⟨"cached-body", 100⟩
    rfl (by decide) (by decide)).1

/-- C9: an idempotency lookup finding a record with `expires_at` at or
before now deletes the record and reports absent; a store always sets
the expiry to now + 24h (upsert); and a replay whose cached entry has
expired falls through to the normal path and creates a new pending
payment row and job. -/
theorem idempotency_lazy_expiry :
    (∀ (now : Nat) (store : IdemStore) (k : String) (mid : Nat) (rec : IdemRecord),
      idemLookup store (k, mid) = some rec →
      rec.expiresAt ≤ now →
      checkIdempotencyKey now store k mid =
        (none, store.filter (fun e => !(e.1 == (k, mid)))) ∧
      idemLookup ((checkIdempotencyKey now store k mid).2) (k, mid) = none) ∧
    (∀ (now : Nat) (store : IdemStore) (k : String) (mid : Nat) (resp : String),
      idemLookup (storeIdempotencyKey now store k mid resp) (k, mid) =
        some { response := resp, expiresAt := now + 24 * 60 * 60 * 1000 }) ∧
    (∀ (now : Nat) (st : GatewayState) (merchantId : Nat) (req : CreatePaymentReq)
        (freshId : Nat) (k : String) (rec : IdemRecord) (order : Order) (v : String),
      req.idempotencyKey = some k →
      idemLookup st.idem (k, merchantId) = some rec →
      rec.expiresAt ≤ now →
      st.orders.find? (fun o => o.id == req.orderId && o.merchantId == merchantId) =
        some order →
      req.method = "upi" →
      req.vpa = some v →
      (createPayment now st merchantId req freshId).2.payments =
        st.payments ++
          [{ id := freshId, orderId := req.orderId, merchantId := merchantId
             amount := order.amount, currency := order.currency, method := req.method
             cardNumber := req.cardNumber, cardExpiry := req.cardExpiry
             cardCvv := req.cardCvv, vpa := req.vpa
             status := PaymentStatus.pending }] ∧
      (createPayment now st merchantId req freshId).2.paymentQueue =
        st.paymentQueue ++ [freshId]) := by
  refine ⟨?_, ?_, ?_⟩
  · intro now store k mid rec hlook hexp
    have hcheck : checkIdempotencyKey now store k mid =
        (none, store.filter (fun e => !(e.1 == (k, mid)))) := by
      rw [checkIdempotencyKey, hlook]
      simp [hexp]
    refine ⟨hcheck, ?_⟩
    rw [hcheck]
    exact idemLookup_filter_self store k mid
  · intro now store k mid resp
    exact idemLookup_store now store k mid resp
  · intro now st merchantId req freshId k rec order v hkey hlook hexp horder hmethod hvpa
    have hcheck : checkIdempotencyKey now st.idem k merchantId =
        (none, st.idem.filter (fun e => !(e.1 == (k, merchantId)))) := by
      rw [checkIdempotencyKey, hlook]
      simp [hexp]
    constructor <;>
      simp [createPayment, hkey, hcheck, horder, hmethod, hvpa]

/-- C9 witness: a replay at now = 200 against an entry expired at 100
creates a new payment row and job. -/
theorem idempotency_lazy_expiry_witness :
    (createPayment 200
        ⟨[⟨1, 1, 500, "INR"⟩], [], [(("k", 1), ⟨"old", 100⟩)], []⟩ 1
        ⟨1, "upi", none, none, none, some "u", some "k"⟩ 7).2.payments =
      [] ++ [⟨7, 1, 1, 500, "INR", "upi", none, none, none, some "u",
        PaymentStatus.pending⟩] ∧
    (createPayment 200
        ⟨[⟨1, 1, 500, "INR"⟩], [], [(("k", 1), ⟨"old", 100⟩)], []⟩ 1
        ⟨1, "upi", none, none, none, some "u", some "k"⟩ 7).2.paymentQueue =
      [] ++ [7] :=
  idempotency_lazy_expiry.2.2 200
    ⟨[⟨1, 1, 500, "INR"⟩], [], [(("k", 1), ⟨"old", 100⟩)], []⟩ 1
    ⟨1, "upi", none, none, none, some "u", some "k"⟩ 7 "k" ⟨"old", 100⟩
    ⟨1, 1, 500, "INR"⟩ "u" rfl (by decide) (by decide) (by decide) rfl rfl

lemma procInv_init : ProcInv procInit := by
  intro pid
  simp [procInit, ProcInv]

lemma jobs_mem_pending (s : ProcState) (pid : Nat) (hinv : ProcInv s)
    (hjob : pid ∈ s.jobs) : s.payments pid = some PaymentStatus.pending := by
  have hc := hinv pid
  by_cases hp : s.payments pid = some PaymentStatus.pending
  · exact hp
  · rw [if_neg hp] at hc
    exact absurd (List.count_eq_zero.mp hc) (by simpa using hjob)

lemma procInv_create (s : ProcState) (pid : Nat) (hfresh : s.payments pid = none)
    (hinv : ProcInv s) : ProcInv (apiCreate s pid) := by
  intro q
  have hc := hinv q
  by_cases hq : q = pid
  · subst hq
    have hz : s.jobs.count q = 0 := by
      rw [hfresh] at hc
      simpa using hc
    simp [apiCreate, List.count_cons, hz]
  · have hne : ¬ (pid == q) = true := by simpa using fun h => hq h.symm
    simp [apiCreate, List.count_cons, hq, hne, hc]

lemma procInv_run (s : ProcState) (pid : Nat) (outcomeOk : Bool)
    (hjob : pid ∈ s.jobs) (hinv : ProcInv s) : ProcInv (workerRun s pid outcomeOk) := by
  have hpend := jobs_mem_pending s pid hinv hjob
  intro q
  by_cases hq : q = pid
  · subst hq
    have h1 : s.jobs.count q = 1 := by
      have hc := hinv q
      rw [if_pos hpend] at hc
      exact hc
    have hz : (s.jobs.erase q).count q = 0 := by
      rw [List.count_erase_self, h1]
    cases outcomeOk <;> simp [workerRun, hz]
  · have hcnt : (s.jobs.erase pid).count q = s.jobs.count q :=
      List.count_erase_of_ne hq s.jobs
    have hc := hinv q
    simp [workerRun, hq, hcnt, hc]

lemma procInv_step {s t : ProcState} (hstep : ProcStep s t) (hinv : ProcInv s) :
    ProcInv t := by
  cases hstep with
  | create pid hfresh => exact procInv_create s pid hfresh hinv
  | run pid outcomeOk hjob hrow => exact procInv_run s pid outcomeOk hjob hinv

lemma terminal_stable_step {s t : ProcState} (hstep : ProcStep s t)
    (hinv : ProcInv s) (pid : Nat) (st0 : PaymentStatus)
    (hterm : s.payments pid = some st0) (hne : st0 ≠ PaymentStatus.pending) :
    t.payments pid = some st0 := by
  cases hstep with
  | create pid2 hfresh =>
    have hq : pid ≠ pid2 := by
      intro h
      rw [h, hfresh] at hterm
      cases hterm
    simp [apiCreate, hq, hterm]
  | run pid2 outcomeOk hjob hrow =>
    have hq : pid ≠ pid2 := by
      intro h
      subst h
      have hp := jobs_mem_pending s pid hinv hjob
      rw [hterm] at hp
      injection hp with h2
      exact hne h2
    simp [workerRun, hq, hterm]

lemma procSteps_inv_and_stable {s t : ProcState} (hsteps : ProcSteps s t)
    (hinv : ProcInv s) :
    ProcInv t ∧ (∀ pid st0, s.payments pid = some st0 →
      st0 ≠ PaymentStatus.pending → t.payments pid = some st0) := by
  induction hsteps with
  | refl => exact ⟨hinv, fun pid st0 h _ => h⟩
  | tail h1 h2 ih =>
    obtain ⟨hinvT, hstab⟩ := ih
    refine ⟨procInv_step h2 hinvT, fun pid st0 hterm hne => ?_⟩
    exact terminal_stable_step h2 hinvT pid st0 (hstab pid st0 hterm hne) hne

/-- C5: a payment is created by the API with status pending together with
exactly one processing job; a job is only ever held by a pending payment,
the worker run consumes it and writes a terminal status; and once a
payment is terminal no reachable later state reverts it to pending or
switches it to the other terminal status. -/
theorem payment_lifecycle :
    (∀ (s : ProcState) (pid : Nat), ProcInv s → s.payments pid = none →
      (apiCreate s pid).payments pid = some PaymentStatus.pending ∧
      (apiCreate s pid).jobs.count pid = 1 ∧
      ProcInv (apiCreate s pid)) ∧
    (∀ (s : ProcState) (pid : Nat), ProcInv s → pid ∈ s.jobs →
      s.payments pid = some PaymentStatus.pending) ∧
    (∀ (s : ProcState) (pid : Nat) (outcomeOk : Bool),
      (workerRun s pid outcomeOk).payments pid =
        some (if outcomeOk then PaymentStatus.success else PaymentStatus.failed) ∧
      (workerRun s pid outcomeOk).jobs.count pid = s.jobs.count pid - 1) ∧
    (∀ (s t : ProcState) (pid : Nat) (st0 : PaymentStatus),
      ProcInv s → ProcSteps s t → s.payments pid = some st0 →
      st0 ≠ PaymentStatus.pending → t.payments pid = some st0) := by
  refine ⟨?_, ?_, ?_, ?_⟩
  · intro s pid hinv hfresh
    have hinv2 := procInv_create s pid hfresh hinv
    have hcount := hinv2 pid
    refine ⟨by simp [apiCreate], ?_, hinv2⟩
    rw [if_pos (by simp [apiCreate])] at hcount
    exact hcount
  · intro s pid hinv hjob
    exact jobs_mem_pending s pid hinv hjob
  · intro s pid outcomeOk
    exact ⟨by simp [workerRun], by simp [workerRun, List.count_erase_self]⟩
  · intro s t pid st0 hinv hsteps hterm hne
    exact (procSteps_inv_and_stable hsteps hinv).2 pid st0 hterm hne

/-- C5 witness: creating payment 0 in the empty state yields a pending
payment with exactly one queued job, and after its worker run the
terminal status persists along the empty continuation. -/
theorem payment_lifecycle_witness :
    ((apiCreate procInit 0).payments 0 = some PaymentStatus.pending ∧
      (apiCreate procInit 0).jobs.count 0 = 1 ∧
      ProcInv (apiCreate procInit 0)) ∧
    (workerRun (apiCreate procInit 0) 0 true).payments 0 = some PaymentStatus.success :=
  ⟨payment_lifecycle.1 procInit 0 procInv_init rfl,
    payment_lifecycle.2.2.2 (workerRun (apiCreate procInit 0) 0 true)
      (workerRun (apiCreate procInit 0) 0 true) 0 PaymentStatus.success
      (procInv_run (apiCreate procInit 0) 0 true (by simp [apiCreate])
        (procInv_create procInit 0 rfl procInv_init))
      ProcSteps.refl (by simp [workerRun]) (by simp)⟩

lemma hexDigit_inj_fin : ∀ a b : Fin 16, hexDigit a.val = hexDigit b.val → a = b := by
  decide

lemma hexDigit_inj (a b : Nat) (ha : a < 16) (hb : b < 16)
    (h : hexDigit a = hexDigit b) : a = b :=
  congrArg Fin.val (hexDigit_inj_fin ⟨a, ha⟩ ⟨b, hb⟩ h)

lemma byteToHex_inj (a b : Nat) (ha : a < 256) (hb : b < 256)
    (h : byteToHex a = byteToHex b) : a = b := by
  rw [byteToHex, byteToHex] at h
  have h1 := List.head_eq_of_cons_eq h
  have h2 := List.head_eq_of_cons_eq (List.tail_eq_of_cons_eq h)
  have e1 : a / 16 = b / 16 :=
    hexDigit_inj _ _ (by omega) (by omega) h1
  have e2 : a % 16 = b % 16 :=
    hexDigit_inj _ _ (by omega) (by omega) h2
  omega

lemma flatMap_byteToHex_inj : ∀ (l1 l2 : List Nat), (∀ x ∈ l1, x < 256) →
    (∀ x ∈ l2, x < 256) → l1.flatMap byteToHex = l2.flatMap byteToHex → l1 = l2 := by
  intro l1
  induction l1 with
  | nil =>
    intro l2 _ _ h
    cases l2 with
    | nil => rfl
    | cons y ys => simp [byteToHex] at h
  | cons x xs ih =>
    intro l2 hb1 hb2 h
    cases l2 with
    | nil => simp [byteToHex] at h
    | cons y ys =>
      simp only [List.flatMap_cons, byteToHex, List.cons_append, List.nil_append] at h
      have hx : x = y := byteToHex_inj x y (hb1 x (by simp)) (hb2 y (by simp)) (by
        rw [byteToHex, byteToHex]
        have e1 := List.head_eq_of_cons_eq h
        have e2 := List.head_eq_of_cons_eq (List.tail_eq_of_cons_eq h)
        rw [e1, e2])
      have ht : xs.flatMap byteToHex = ys.flatMap byteToHex :=
        List.tail_eq_of_cons_eq (List.tail_eq_of_cons_eq h)
      exact hx ▸ congrArg (List.cons x)
        (ih ys (fun z hz => hb1 z (by simp [hz])) (fun z hz => hb2 z (by simp [hz])) ht)

lemma toHexString_inj (l1 l2 : List Nat) (hb1 : ∀ x ∈ l1, x < 256)
    (hb2 : ∀ x ∈ l2, x < 256) (h : toHexString l1 = toHexString l2) : l1 = l2 := by
  rw [toHexString, toHexString] at h
  have hd : l1.flatMap byteToHex = l2.flatMap byteToHex := by
    injection h
  exact flatMap_byteToHex_inj l1 l2 hb1 hb2 hd

lemma sha256_bytes_lt (msg : List Nat) : ∀ b ∈ sha256 msg, b < 256 := by
  intro b hb
  rw [sha256] at hb
  rw [List.mem_flatMap] at hb
  obtain ⟨w, _, hbw⟩ := hb
  rw [wordToBytes] at hbw
  have h256 : (0 : Nat) < 256 := by omega
  simp only [List.mem_cons, List.not_mem_nil, or_false] at hbw
  rcases hbw with rfl | rfl | rfl | rfl
  all_goals exact Nat.mod_lt _ h256

lemma hmacSha256_bytes_lt (key msg : List Nat) : ∀ b ∈ hmacSha256 key msg, b < 256 := by
  rw [hmacSha256]
  exact sha256_bytes_lt _

/-- C3 (amended): the X-Webhook-Signature header is the hex HMAC-SHA256,
keyed by the merchant secret, of exactly the bytes sent as the HTTP
body; verifying a signed payload with the same secret over the same
bytes succeeds; and verification of any signature succeeds precisely
when the HMAC recomputed by the receiver equals the HMAC the sender
computed - so a mutated payload or a different secret is rejected
exactly when its HMAC differs. -/
theorem webhook_signature_scheme :
    (∀ secretBytes payloadBytes : List Nat,
      (buildWebhookRequest secretBytes payloadBytes).body = payloadBytes ∧
      (buildWebhookRequest secretBytes payloadBytes).signatureHeader =
        toHexString (hmacSha256 secretBytes
          (buildWebhookRequest secretBytes payloadBytes).body)) ∧
    (∀ secretBytes payloadBytes : List Nat,
      verifyWebhookSignature secretBytes payloadBytes
        (generateWebhookSignature payloadBytes secretBytes) = true) ∧
    (∀ s1 s2 p1 p2 : List Nat,
      verifyWebhookSignature s2 p2 (generateWebhookSignature p1 s1) = true ↔
        hmacSha256 s2 p2 = hmacSha256 s1 p1) := by
  refine ⟨?_, ?_, ?_⟩
  · intro secretBytes payloadBytes
    exact ⟨rfl, rfl⟩
  · intro secretBytes payloadBytes
    simp [verifyWebhookSignature, generateWebhookSignature]
  · intro s1 s2 p1 p2
    rw [verifyWebhookSignature, generateWebhookSignature]
    rw [beq_iff_eq]
    constructor
    · intro h
      exact (toHexString_inj _ _ (fun b hb => hmacSha256_bytes_lt s1 p1 b hb)
        (fun b hb => hmacSha256_bytes_lt s2 p2 b hb) h).symm
    · intro h
      rw [h]

/-- C3 counterexample: HMAC zero-pads secrets to the 64-byte block, so
the distinct secrets [97] and [97, 0] sign every payload identically;
verifying with the wrong one of the two secrets still succeeds,
refuting the claim that verification with a different secret fails. -/
theorem webhook_signature_wrong_secret_accepted :
    ([97] : List Nat) ≠ [97, 0] ∧
    verifyWebhookSignature [97, 0] [112] (generateWebhookSignature [112] [97]) = true := by
  refine ⟨by decide, ?_⟩
  have hkey : hmacBlockKey [97] = hmacBlockKey [97, 0] := by decide
  have hm : hmacSha256 ([97] : List Nat) [112] = hmacSha256 [97, 0] [112] := by
    simp only [hmacSha256]
    rw [hkey]
  rw [verifyWebhookSignature, generateWebhookSignature, hm]
  simp

/-- C10 (amended): `createWebhookLog` never propagates an error, so the
worker's terminal-status write always survives webhook emission; when
the merchant is missing, has no webhook_url, or the failure happens at
the merchant lookup or the log insert, no log row and no delivery job
are created; the normal path creates exactly one row and one job; but a
failure at the enqueue, after the insert, leaves the inserted log row in
place with no delivery job. -/
theorem webhook_emission_best_effort :
    (∀ (payments : Nat → Option PaymentStatus) (pid : Nat) (outcomeOk : Bool)
        (merchant : Option MerchantRow) (fault : WhFault) (wh : WhState)
        (merchantId : Nat) (payloadStr : String) (newLogId : Nat),
      (paymentWorkerFinish payments pid outcomeOk merchant fault wh merchantId
          payloadStr newLogId).1 pid =
        some (if outcomeOk then PaymentStatus.success else PaymentStatus.failed)) ∧
    (∀ (merchant : Option MerchantRow) (fault : WhFault) (st : WhState)
        (merchantId : Nat) (event payloadStr : String) (newLogId : Nat),
      fault = WhFault.fMerchantLookup ∨ fault = WhFault.fInsert →
      createWebhookLog merchant fault st merchantId event payloadStr newLogId = st) ∧
    (∀ (fault : WhFault) (st : WhState) (merchantId : Nat)
        (event payloadStr : String) (newLogId : Nat),
      createWebhookLog none fault st merchantId event payloadStr newLogId = st) ∧
    (∀ (secret : String) (fault : WhFault) (st : WhState) (merchantId : Nat)
        (event payloadStr : String) (newLogId : Nat),
      createWebhookLog (some { webhookUrl := none, webhookSecret := secret })
        fault st merchantId event payloadStr newLogId = st) ∧
    (∀ (url secret : String) (st : WhState) (merchantId : Nat)
        (event payloadStr : String) (newLogId : Nat),
      createWebhookLog (some { webhookUrl := some url, webhookSecret := secret })
        WhFault.fNone st merchantId event payloadStr newLogId =
        ⟨st.logs ++ [⟨merchantId, event, payloadStr, WebhookStatus.pending, 0⟩],
          st.whQueue ++ [⟨newLogId, merchantId, event⟩]⟩) ∧
    (∀ (url secret : String) (st : WhState) (merchantId : Nat)
        (event payloadStr : String) (newLogId : Nat),
      createWebhookLog (some { webhookUrl := some url, webhookSecret := secret })
        WhFault.fEnqueue st merchantId event payloadStr newLogId =
        ⟨st.logs ++ [⟨merchantId, event, payloadStr, WebhookStatus.pending, 0⟩],
          st.whQueue⟩) := by
  refine ⟨?_, ?_, ?_, ?_, ?_, ?_⟩
  · intro payments pid outcomeOk merchant fault wh merchantId payloadStr newLogId
    simp [paymentWorkerFinish]
  · intro merchant fault st merchantId event payloadStr newLogId hf
    rcases hf with rfl | rfl
    · simp [createWebhookLog, createWebhookLogInner]
    · cases merchant with
      | none => simp [createWebhookLog, createWebhookLogInner]
      | some m =>
        cases hm : m.webhookUrl with
        | none => simp [createWebhookLog, createWebhookLogInner, hm]
        | some u => simp [createWebhookLog, createWebhookLogInner, hm]
  · intro fault st merchantId event payloadStr newLogId
    cases fault <;> simp [createWebhookLog, createWebhookLogInner]
  · intro secret fault st merchantId event payloadStr newLogId
    cases fault <;> simp [createWebhookLog, createWebhookLogInner]
  · intro url secret st merchantId event payloadStr newLogId
    simp [createWebhookLog, createWebhookLogInner]
  · intro url secret st merchantId event payloadStr newLogId
    simp [createWebhookLog, createWebhookLogInner]

/-- C10 witness: the merchant-lookup failure case applied at a concrete
state leaves that state untouched. -/
theorem webhook_emission_best_effort_witness :
    createWebhookLog (some { webhookUrl := some "u", webhookSecret := "s" })
      WhFault.fMerchantLookup ⟨[], []⟩ 1 "payment.success" "p" 10 = ⟨[], []⟩ :=
  webhook_emission_best_effort.2.1
    (some { webhookUrl := some "u", webhookSecret := "s" })
    WhFault.fMerchantLookup ⟨[], []⟩ 1 "payment.success" "p" 10 (Or.inl rfl)

/-- C10 counterexample: when `webhookQueue.add` fails after the log
INSERT has committed, the catch handler swallows the error but the log
row already exists - refuting the claim that in the error case no
webhook log row is ever created. -/
theorem webhook_emission_row_created_on_enqueue_error :
    (createWebhookLog (some { webhookUrl := some "u", webhookSecret := "s" })
        WhFault.fEnqueue ⟨[], []⟩ 1 "payment.success" "p" 10).logs =
      [⟨1, "payment.success", "p", WebhookStatus.pending, 0⟩] ∧
    (createWebhookLog (some { webhookUrl := some "u", webhookSecret := "s" })
        WhFault.fEnqueue ⟨[], []⟩ 1 "payment.success" "p" 10).whQueue = [] := by
  constructor <;> rfl
